import Mathlib

/-!
Verification of the status-aggregation core of the `lf-workflow-dash`
dashboard (`src/lf_workflow_dash/data_types.py`).

The Python classes `WorkflowElemData` and `ProjectData` are embedded as Lean
structures; `None`-able fields become `Option`; the mutating methods
`set_status` and `set_copier_version` become state-passing functions; the
aggregation function `calculate_statistics`, which both returns a statistics
dictionary and overwrites per-project counters, returns the statistics
record together with the updated project list.  Python floats in the
percentage computation are modelled as exact rationals, and Python's
`round(x, 1)` as round-half-to-even at one decimal digit.
-/

/-- Embeds the dataclass `WorkflowElemData`: per-workflow information. -/
structure WorkflowElemData where
  workflow_name : String
  workflow_url : String
  workflow_status : String
  display_class : String
  icon_class : String
  owner : String
  repo : String
  conclusion_time : String
  conclusion_time_one_line : String
  is_stale : Bool
  friendly_name : String
  branch : String
deriving Repr, DecidableEq

/-- Embeds `WorkflowElemData.__init__(workflow_name, repo_url, owner, repo, branch="")`. -/
def WorkflowElemData.init (workflow_name repo_url owner repo branch : String) :
    WorkflowElemData :=
  { workflow_name := workflow_name
    owner := owner
    repo := repo
    workflow_url := repo_url ++ "/actions/workflows/" ++ workflow_name
    workflow_status := "pending"
    display_class := "yellow-cell"
    icon_class := "fa-solid fa-circle-question"
    branch := branch
    conclusion_time := ""
    conclusion_time_one_line := ""
    is_stale := false
    friendly_name := "" }

/-- Embeds `WorkflowElemData.set_status(status, conclusion_time, is_stale)`:
assigns the outcome fields unconditionally, then updates the display class and
icon only when the status is "success" or "failure". -/
def WorkflowElemData.set_status (w : WorkflowElemData)
    (status conclusion_time : String) (is_stale : Bool) : WorkflowElemData :=
  let w1 : WorkflowElemData :=
    { w with
      workflow_status := status
      conclusion_time := conclusion_time
      conclusion_time_one_line := conclusion_time.replace "<br>" " "
      is_stale := is_stale }
  if status = "success" then
    { w1 with
      display_class := "green-cell"
      icon_class := "fa-solid fa-circle-check" }
  else if status = "failure" then
    { w1 with
      display_class := "red-cell"
      icon_class := "fa-solid fa-circle-xmark" }
  else
    w1

/-- Embeds the dataclass `ProjectData`: per-repo project workflow data.
The four named workflow slots are `None`-able in Python, hence `Option` here. -/
structure ProjectData where
  owner : String
  repo : String
  icon : String
  repo_url : String
  copier_version : String
  copier_version_display_class : String
  passing_workflows : Nat
  failing_workflows : Nat
  smoke_test : Option WorkflowElemData
  build_docs : Option WorkflowElemData
  benchmarks : Option WorkflowElemData
  live_build : Option WorkflowElemData
  other_workflows : List WorkflowElemData
deriving Repr, DecidableEq

/-- Embeds `ProjectData(owner=owner, repo=repo)` followed by `__post_init__`,
which derives `repo_url`; all other fields take their dataclass defaults. -/
def ProjectData.init (owner repo : String) : ProjectData :=
  { owner := owner
    repo := repo
    icon := ""
    repo_url := "https://github.com/" ++ owner ++ "/" ++ repo
    copier_version := ""
    copier_version_display_class := "yellow-cell"
    passing_workflows := 0
    failing_workflows := 0
    smoke_test := none
    build_docs := none
    benchmarks := none
    live_build := none
    other_workflows := [] }

/-- A `semver.Version` value as passed to `set_copier_version`:
major.minor.patch (the code never supplies prerelease or build parts). -/
structure SemVer where
  major : Nat
  minor : Nat
  patch : Nat
deriving Repr, DecidableEq

/-- Semantic-version strict order: lexicographic on (major, minor, patch),
the comparison `semver.Version.__lt__` performs. -/
def SemVer.lt (a b : SemVer) : Bool :=
  if a.major ≠ b.major then decide (a.major < b.major)
  else if a.minor ≠ b.minor then decide (a.minor < b.minor)
  else decide (a.patch < b.patch)

/-- The string form `str(v)` of a version. -/
def SemVer.toStr (v : SemVer) : String :=
  toString v.major ++ "." ++ toString v.minor ++ "." ++ toString v.patch

/-- Embeds `ProjectData.set_copier_version(this_version, template_version)`.
`this_version` is `None`-able (`if not this_version: return`), modelled by
`Option`; a `semver.Version` object itself is always truthy. -/
def ProjectData.set_copier_version (p : ProjectData)
    (this_version : Option SemVer) (template_version : SemVer) : ProjectData :=
  match this_version with
  | none => p
  | some v =>
    let p1 : ProjectData := { p with copier_version := v.toStr }
    if SemVer.lt v template_version then
      { p1 with copier_version_display_class := "yellow-cell" }
    else if v = template_version then
      { p1 with copier_version_display_class := "green-cell" }
    else
      { p1 with copier_version_display_class := "red-cell" }

/-- The fleet-wide accumulator of `calculate_statistics`: the five counters
initialised to 0 before the project loop. -/
structure FleetAcc where
  passing_count : Nat
  failing_count : Nat
  stale_count : Nat
  pending_count : Nat
  total_workflows : Nat
deriving Repr, DecidableEq

/-- The effective workflow list the loop body builds for one project:
each truthy (non-`None`) named slot in the fixed order smoke test, docs
build, benchmarks, live build, then `other_workflows`. -/
def effective_workflows (p : ProjectData) : List WorkflowElemData :=
  p.smoke_test.toList ++ p.build_docs.toList ++ p.benchmarks.toList ++
    p.live_build.toList ++ p.other_workflows

/-- The body of the inner `for workflow in workflows` loop: state is the
fleet accumulator together with the per-project `(project_passing,
project_failing)` tallies.  Increments the total, then one of
passing/failing/pending according to the `if`/`elif` chain (an unknown status
increments none), then — independently — the stale count. -/
def step_workflow (st : FleetAcc × Nat × Nat) (w : WorkflowElemData) :
    FleetAcc × Nat × Nat :=
  let a0 : FleetAcc := { st.1 with total_workflows := st.1.total_workflows + 1 }
  let st1 : FleetAcc × Nat × Nat :=
    if w.workflow_status = "success" then
      ({ a0 with passing_count := a0.passing_count + 1 }, st.2.1 + 1, st.2.2)
    else if w.workflow_status = "failure" then
      ({ a0 with failing_count := a0.failing_count + 1 }, st.2.1, st.2.2 + 1)
    else if w.workflow_status = "pending" then
      ({ a0 with pending_count := a0.pending_count + 1 }, st.2.1, st.2.2)
    else
      (a0, st.2.1, st.2.2)
  if w.is_stale then
    ({ st1.1 with stale_count := st1.1.stale_count + 1 }, st1.2.1, st1.2.2)
  else
    st1

/-- The body of the outer `for project in all_projects` loop: runs the inner
loop from fresh per-project tallies and stores them into the project's
`passing_workflows` / `failing_workflows` fields.  The second component
collects the projects already processed, in order. -/
def step_project (st : FleetAcc × List ProjectData) (p : ProjectData) :
    FleetAcc × List ProjectData :=
  let r := (effective_workflows p).foldl step_workflow (st.1, 0, 0)
  (r.1, st.2 ++ [{ p with passing_workflows := r.2.1, failing_workflows := r.2.2 }])

/-- Round-half-to-even of a rational, the tie-breaking rule of Python's
built-in `round`. -/
def roundHalfEven (q : ℚ) : ℤ :=
  let f : ℤ := ⌊q⌋
  let r : ℚ := q - f
  if r < 1 / 2 then f
  else if 1 / 2 < r then f + 1
  else if f % 2 = 0 then f else f + 1

/-- Model of `round(q, 1)`: Python's round to one decimal digit, on the exact value. -/
def pyRound1 (q : ℚ) : ℚ := (roundHalfEven (q * 10) : ℚ) / 10

/-- The statistics dictionary `calculate_statistics` returns. -/
structure Stats where
  passing_count : Nat
  failing_count : Nat
  stale_count : Nat
  pending_count : Nat
  total_workflows : Nat
  passing_percent : ℚ
  failing_percent : ℚ
  repo_count : Nat
deriving Repr, DecidableEq

/-- Embeds `calculate_statistics(all_projects)`.  Python mutates each
`ProjectData` in place and returns a dict; here the updated project list is
returned alongside the statistics record. -/
def calculate_statistics (all_projects : List ProjectData) :
    Stats × List ProjectData :=
  let r := all_projects.foldl step_project (⟨0, 0, 0, 0, 0⟩, [])
  let a := r.1
  let passing_percent := pyRound1
    (if 0 < a.total_workflows then
      (a.passing_count : ℚ) / (a.total_workflows : ℚ) * 100 else 0)
  let failing_percent := pyRound1
    (if 0 < a.total_workflows then
      (a.failing_count : ℚ) / (a.total_workflows : ℚ) * 100 else 0)
  ({ passing_count := a.passing_count
     failing_count := a.failing_count
     stale_count := a.stale_count
     pending_count := a.pending_count
     total_workflows := a.total_workflows
     passing_percent := passing_percent
     failing_percent := failing_percent
     repo_count := all_projects.length }, r.2)

/-- Number of workflows in `ws` whose status equals `s`. -/
def countStatus (s : String) (ws : List WorkflowElemData) : Nat :=
  ws.countP (fun w => w.workflow_status == s)

/-- Number of stale workflows in `ws`. -/
def countStale (ws : List WorkflowElemData) : Nat :=
  ws.countP (fun w => w.is_stale)

/-- Number of workflows in `ws` whose status is none of "success",
"failure", "pending". -/
def countUnknown (ws : List WorkflowElemData) : Nat :=
  ws.countP (fun w =>
    !(w.workflow_status == "success" || w.workflow_status == "failure" ||
      w.workflow_status == "pending"))

/-- All effective workflows of a project list, in processing order. -/
def allWorkflows : List ProjectData → List WorkflowElemData
  | [] => []
  | p :: ps => effective_workflows p ++ allWorkflows ps

/-- The value the aggregation pass writes back into a project: the same
project with its two counters overwritten by the counts over its own
effective workflow set. -/
def updated_project (p : ProjectData) : ProjectData :=
  { p with
    passing_workflows := countStatus "success" (effective_workflows p)
    failing_workflows := countStatus "failure" (effective_workflows p) }


/-- Number of present named slots of a project. -/
def named_slot_count (p : ProjectData) : Nat :=
  (if p.smoke_test.isSome then 1 else 0) + (if p.build_docs.isSome then 1 else 0) +
    (if p.benchmarks.isSome then 1 else 0) + (if p.live_build.isSome then 1 else 0)

/-- A workflow record in a given status, used to build concrete test states:
a freshly constructed workflow with its outcome fields overwritten. -/
def demoWorkflow (s : String) (st : Bool) : WorkflowElemData :=
  { WorkflowElemData.init "wf.yml" "https://github.com/o/r" "o" "r" "" with
    workflow_status := s
    is_stale := st }

/-- A project whose effective workflow set is exactly `ws`. -/
def demoProject (ws : List WorkflowElemData) : ProjectData :=
  { ProjectData.init "o" "r" with other_workflows := ws }

/-- A workflow set to "success" and then to "pending": the state reached by
two `set_status` calls on a fresh workflow. -/
def pendingAfterSuccess : WorkflowElemData :=
  ((WorkflowElemData.init "ci.yml" "https://github.com/o/r" "o" "r" "").set_status
    "success" "Jan 1" false).set_status "pending" "Jan 2" false

/-- One project with four effective workflows of which exactly one is
successful. -/
def demoQuarter : List ProjectData :=
  [demoProject [demoWorkflow "success" false, demoWorkflow "failure" false,
    demoWorkflow "pending" false, demoWorkflow "mystery" false]]

/-- One inner-loop step adds the workflow's contribution to each counter:
1 to the total, 1 to exactly one of passing/failing/pending when the status
is one of the three known strings (and to the matching per-project tally for
success/failure), and 1 to the stale count when the workflow is stale. -/
theorem step_workflow_char (a : FleetAcc) (pp pf : Nat) (w : WorkflowElemData) :
    step_workflow (a, pp, pf) w =
      ({ passing_count := a.passing_count +
           (if w.workflow_status = "success" then 1 else 0)
         failing_count := a.failing_count +
           (if w.workflow_status = "failure" then 1 else 0)
         stale_count := a.stale_count + (if w.is_stale then 1 else 0)
         pending_count := a.pending_count +
           (if w.workflow_status = "pending" then 1 else 0)
         total_workflows := a.total_workflows + 1 },
       pp + (if w.workflow_status = "success" then 1 else 0),
       pf + (if w.workflow_status = "failure" then 1 else 0)) := by
  simp only [step_workflow]
  split_ifs <;> simp_all +decide

/-- Running the inner loop over a workflow list adds the per-status counts
to the accumulator and the success/failure counts to the tallies. -/
theorem foldl_step_workflow (ws : List WorkflowElemData) (a : FleetAcc)
    (pp pf : Nat) :
    ws.foldl step_workflow (a, pp, pf) =
      ({ passing_count := a.passing_count + countStatus "success" ws
         failing_count := a.failing_count + countStatus "failure" ws
         stale_count := a.stale_count + countStale ws
         pending_count := a.pending_count + countStatus "pending" ws
         total_workflows := a.total_workflows + ws.length },
       pp + countStatus "success" ws, pf + countStatus "failure" ws) := by
  induction ws generalizing a pp pf with
  | nil => simp [countStatus, countStale]
  | cons w ws ih =>
    rw [List.foldl_cons, step_workflow_char, ih]
    simp only [countStatus, countStale, List.countP_cons, List.length_cons,
      Prod.mk.injEq, FleetAcc.mk.injEq, beq_iff_eq]
    refine ⟨⟨?_, ?_, ?_, ?_, ?_⟩, ?_, ?_⟩ <;> (try split_ifs) <;> (try simp_all) <;>
      omega

/-- Running the outer loop over a project list adds the per-status counts of
all effective workflows to the accumulator and appends, in order, each
project with its two counters overwritten. -/
theorem foldl_step_project (ps : List ProjectData) (a : FleetAcc)
    (done : List ProjectData) :
    ps.foldl step_project (a, done) =
      ({ passing_count := a.passing_count + countStatus "success" (allWorkflows ps)
         failing_count := a.failing_count + countStatus "failure" (allWorkflows ps)
         stale_count := a.stale_count + countStale (allWorkflows ps)
         pending_count := a.pending_count + countStatus "pending" (allWorkflows ps)
         total_workflows := a.total_workflows + (allWorkflows ps).length },
       done ++ ps.map updated_project) := by
  induction ps generalizing a done with
  | nil => simp [allWorkflows, countStatus, countStale]
  | cons p ps ih =>
    rw [List.foldl_cons]
    simp only [step_project, foldl_step_workflow]
    rw [ih]
    simp only [allWorkflows, countStatus, countStale, List.countP_append,
      List.length_append, List.map_cons, updated_project, Prod.mk.injEq,
      FleetAcc.mk.injEq, Nat.zero_add, List.append_assoc, List.singleton_append]
    simp [Nat.add_assoc]

/-- Closed form of `calculate_statistics`: counters are the per-status counts
over all effective workflows, percentages apply the rounding formula, and the
project list comes back with each project's counters overwritten. -/
theorem calculate_statistics_char (ps : List ProjectData) :
    calculate_statistics ps =
      ({ passing_count := countStatus "success" (allWorkflows ps)
         failing_count := countStatus "failure" (allWorkflows ps)
         stale_count := countStale (allWorkflows ps)
         pending_count := countStatus "pending" (allWorkflows ps)
         total_workflows := (allWorkflows ps).length
         passing_percent := pyRound1
           (if 0 < (allWorkflows ps).length then
             (countStatus "success" (allWorkflows ps) : ℚ) /
               ((allWorkflows ps).length : ℚ) * 100 else 0)
         failing_percent := pyRound1
           (if 0 < (allWorkflows ps).length then
             (countStatus "failure" (allWorkflows ps) : ℚ) /
               ((allWorkflows ps).length : ℚ) * 100 else 0)
         repo_count := ps.length }, ps.map updated_project) := by
  simp only [calculate_statistics, foldl_step_project, Nat.zero_add,
    List.nil_append]

/-- Function `allWorkflows` distributes over list append. -/
theorem allWorkflows_append (ps qs : List ProjectData) :
    allWorkflows (ps ++ qs) = allWorkflows ps ++ allWorkflows qs := by
  induction ps with
  | nil => simp [allWorkflows]
  | cons p ps ih => simp [allWorkflows, ih]

/-- The effective workflow set of a project has one element per present named
slot plus the other workflows. -/
theorem effective_workflows_length (p : ProjectData) :
    (effective_workflows p).length =
      named_slot_count p + p.other_workflows.length := by
  simp only [effective_workflows, named_slot_count, List.length_append]
  rcases p.smoke_test <;> rcases p.build_docs <;> rcases p.benchmarks <;>
    rcases p.live_build <;> simp [Option.toList]

/-- Every workflow counts toward exactly one of the four buckets
success / failure / pending / unknown. -/
theorem counts_partition (ws : List WorkflowElemData) :
    countStatus "success" ws + countStatus "failure" ws +
      countStatus "pending" ws + countUnknown ws = ws.length := by
  induction ws with
  | nil => simp [countStatus, countUnknown]
  | cons w ws ih =>
    simp only [countStatus, countUnknown, List.countP_cons, List.length_cons] at ih ⊢
    by_cases hs : w.workflow_status = "success" <;>
      by_cases hf : w.workflow_status = "failure" <;>
      by_cases hp : w.workflow_status = "pending" <;>
      simp_all +decide <;> omega

/-- Python's one-decimal round maps 0 to exactly 0. -/
theorem pyRound1_zero : pyRound1 0 = 0 := by
  norm_num [pyRound1, roundHalfEven]

/-- C1, counterexample: the display class is not a pure function of the
current status — after `set_status "success"` followed by
`set_status "pending"`, the status is "pending" but the display class and
icon remain the positive green-cell/check pair instead of the neutral
yellow-cell/question pair the claim requires for a non-success, non-failure
status. -/
theorem set_status_display_not_pure :
    pendingAfterSuccess.workflow_status = "pending" ∧
    pendingAfterSuccess.display_class = "green-cell" ∧
    pendingAfterSuccess.display_class ≠ "yellow-cell" ∧
    pendingAfterSuccess.icon_class = "fa-solid fa-circle-check" := by
  refine ⟨rfl, rfl, ?_, rfl⟩
  decide

/-- C1, amended: at construction the status is "pending" with the neutral
yellow-cell/question display; `set_status` always stores the given status and
recomputes the display pair only for "success" (green-cell/check) and
"failure" (red-cell/cross); for any other status it leaves the display class
and icon unchanged from the previous state. -/
theorem set_status_display_update (w : WorkflowElemData)
    (n u o r b status ct : String) (st : Bool) :
    ((WorkflowElemData.init n u o r b).workflow_status = "pending" ∧
     (WorkflowElemData.init n u o r b).display_class = "yellow-cell" ∧
     (WorkflowElemData.init n u o r b).icon_class = "fa-solid fa-circle-question") ∧
    (w.set_status status ct st).workflow_status = status ∧
    (status = "success" →
      (w.set_status status ct st).display_class = "green-cell" ∧
      (w.set_status status ct st).icon_class = "fa-solid fa-circle-check") ∧
    (status = "failure" →
      (w.set_status status ct st).display_class = "red-cell" ∧
      (w.set_status status ct st).icon_class = "fa-solid fa-circle-xmark") ∧
    (status ≠ "success" → status ≠ "failure" →
      (w.set_status status ct st).display_class = w.display_class ∧
      (w.set_status status ct st).icon_class = w.icon_class) := by
  refine ⟨⟨rfl, rfl, rfl⟩, ?_, ?_, ?_, ?_⟩ <;>
    simp only [WorkflowElemData.set_status] <;> split_ifs <;> simp_all

/-- Witness for the amended C1 theorem at concrete inputs. -/
theorem set_status_display_update_witness :
    ((demoWorkflow "x" false).set_status "success" "t" false).display_class =
      "green-cell" ∧
    ((demoWorkflow "x" false).set_status "failure" "t" false).display_class =
      "red-cell" ∧
    ((demoWorkflow "x" false).set_status "mystery" "t" false).display_class =
      (demoWorkflow "x" false).display_class :=
  ⟨((set_status_display_update (demoWorkflow "x" false) "n" "u" "o" "r" "b"
      "success" "t" false).2.2.1 rfl).1,
   ((set_status_display_update (demoWorkflow "x" false) "n" "u" "o" "r" "b"
      "failure" "t" false).2.2.2.1 rfl).1,
   ((set_status_display_update (demoWorkflow "x" false) "n" "u" "o" "r" "b"
      "mystery" "t" false).2.2.2.2 (by decide) (by decide)).1⟩

/-- C9: `set_status` is idempotent — calling it twice with identical
arguments leaves exactly the state of a single call. -/
theorem set_status_idempotent (w : WorkflowElemData) (status ct : String)
    (st : Bool) :
    (w.set_status status ct st).set_status status ct st =
      w.set_status status ct st := by
  simp only [WorkflowElemData.set_status]
  split_ifs <;> rfl

/-- C2: `set_copier_version` classifies by semantic-version ordering — with
baseline 1.2.0, version 1.1.9 is below baseline (yellow-cell), 1.2.0 is at
baseline (green-cell) and 1.10.0 is above baseline (red-cell, although it is
lexically smaller than "1.2.0"); an absent version makes the call a no-op
leaving the whole record, in particular the stored version string and the
compliance class, unchanged. -/
theorem set_copier_version_semver (p : ProjectData) :
    p.set_copier_version none ⟨1, 2, 0⟩ = p ∧
    (p.set_copier_version (some ⟨1, 1, 9⟩) ⟨1, 2, 0⟩).copier_version_display_class =
      "yellow-cell" ∧
    (p.set_copier_version (some ⟨1, 2, 0⟩) ⟨1, 2, 0⟩).copier_version_display_class =
      "green-cell" ∧
    (p.set_copier_version (some ⟨1, 10, 0⟩) ⟨1, 2, 0⟩).copier_version_display_class =
      "red-cell" := by
  refine ⟨rfl, ?_, ?_, ?_⟩ <;> rfl

/-- C10: a freshly constructed project carries the compliance class
"yellow-cell"; `set_copier_version` with an absent version leaves the class
unchanged; and "yellow-cell" is exactly the class assigned to a
below-baseline version — so a project without version data is
indistinguishable, through the compliance class, from a below-baseline one. -/
theorem fresh_class_matches_below_baseline (p q : ProjectData) (v t : SemVer)
    (o r : String) (hv : SemVer.lt v t = true) :
    (ProjectData.init o r).copier_version_display_class = "yellow-cell" ∧
    (p.set_copier_version none t).copier_version_display_class =
      p.copier_version_display_class ∧
    (q.set_copier_version (some v) t).copier_version_display_class =
      "yellow-cell" ∧
    (ProjectData.init o r).copier_version_display_class =
      (q.set_copier_version (some v) t).copier_version_display_class := by
  refine ⟨rfl, rfl, ?_, ?_⟩ <;>
    simp [ProjectData.set_copier_version, ProjectData.init, hv]

/-- Witness for C10 at concrete inputs. -/
theorem fresh_class_matches_below_baseline_witness :
    (ProjectData.init "o" "r").copier_version_display_class = "yellow-cell" ∧
    ((ProjectData.init "o" "r").set_copier_version (some ⟨1, 0, 0⟩)
      ⟨2, 0, 0⟩).copier_version_display_class = "yellow-cell" :=
  ⟨(fresh_class_matches_below_baseline (ProjectData.init "o" "r")
      (ProjectData.init "o" "r") ⟨1, 0, 0⟩ ⟨2, 0, 0⟩ "o" "r" (by decide)).1,
   (fresh_class_matches_below_baseline (ProjectData.init "o" "r")
      (ProjectData.init "o" "r") ⟨1, 0, 0⟩ ⟨2, 0, 0⟩ "o" "r" (by decide)).2.2.1⟩

/-- C3: after aggregation, each returned project is its input project with
`passing_workflows` overwritten by the count of its own effective workflows
in status "success" and `failing_workflows` by the count in status "failure";
a project with an empty effective workflow set gets both counters set to 0. -/
theorem per_project_counters (ps : List ProjectData) (p : ProjectData)
    (hp : effective_workflows p = []) :
    (calculate_statistics ps).2 =
      ps.map (fun q =>
        { q with
          passing_workflows := countStatus "success" (effective_workflows q)
          failing_workflows := countStatus "failure" (effective_workflows q) }) ∧
    (calculate_statistics [p]).2 =
      [{ p with passing_workflows := 0, failing_workflows := 0 }] := by
  constructor
  · simp only [calculate_statistics_char]
    rfl
  · simp [calculate_statistics_char, updated_project, hp, countStatus]

/-- Witness for C3 at concrete inputs. -/
theorem per_project_counters_witness :
    (calculate_statistics [demoProject [demoWorkflow "success" false]]).2 =
      [demoProject [demoWorkflow "success" false]].map (fun q =>
        { q with
          passing_workflows := countStatus "success" (effective_workflows q)
          failing_workflows := countStatus "failure" (effective_workflows q) }) ∧
    (calculate_statistics [demoProject []]).2 =
      [{ demoProject [] with passing_workflows := 0, failing_workflows := 0 }] :=
  ⟨(per_project_counters [demoProject [demoWorkflow "success" false]]
      (demoProject []) rfl).1,
   (per_project_counters [demoProject [demoWorkflow "success" false]]
      (demoProject []) rfl).2⟩

/-- C4: the fleet stale count is the number of stale workflows regardless of
status, the passing count the number of successful ones, and the two are
additive — appending a project whose single effective workflow is a stale
success raises both counts by exactly 1 in the same pass. -/
theorem stale_additive (ps : List ProjectData) (p : ProjectData)
    (w : WorkflowElemData) (hw : effective_workflows p = [w])
    (hs : w.workflow_status = "success") (hst : w.is_stale = true) :
    (calculate_statistics ps).1.stale_count = countStale (allWorkflows ps) ∧
    (calculate_statistics ps).1.passing_count =
      countStatus "success" (allWorkflows ps) ∧
    (calculate_statistics (ps ++ [p])).1.passing_count =
      (calculate_statistics ps).1.passing_count + 1 ∧
    (calculate_statistics (ps ++ [p])).1.stale_count =
      (calculate_statistics ps).1.stale_count + 1 := by
  refine ⟨by simp [calculate_statistics_char], by simp [calculate_statistics_char],
    ?_, ?_⟩ <;>
  simp [calculate_statistics_char, allWorkflows_append, allWorkflows,
    countStatus, countStale, List.countP_append, hw, hs, hst]

/-- Witness for C4 at concrete inputs. -/
theorem stale_additive_witness :
    (calculate_statistics []).1.stale_count = countStale (allWorkflows []) ∧
    (calculate_statistics []).1.passing_count =
      countStatus "success" (allWorkflows []) ∧
    (calculate_statistics ([] ++ [demoProject [demoWorkflow "success" true]])).1.passing_count =
      (calculate_statistics []).1.passing_count + 1 ∧
    (calculate_statistics ([] ++ [demoProject [demoWorkflow "success" true]])).1.stale_count =
      (calculate_statistics []).1.stale_count + 1 :=
  stale_additive [] (demoProject [demoWorkflow "success" true])
    (demoWorkflow "success" true) rfl rfl rfl

/-- C5: the three named buckets never exceed the total, and the gap is
strict exactly when some effective workflow carries a status other than
"success", "failure" or "pending". -/
theorem bucket_sum_le_total (ps : List ProjectData) :
    (calculate_statistics ps).1.passing_count +
        (calculate_statistics ps).1.failing_count +
        (calculate_statistics ps).1.pending_count ≤
      (calculate_statistics ps).1.total_workflows ∧
    ((calculate_statistics ps).1.passing_count +
        (calculate_statistics ps).1.failing_count +
        (calculate_statistics ps).1.pending_count <
      (calculate_statistics ps).1.total_workflows ↔
     ∃ w ∈ allWorkflows ps, w.workflow_status ≠ "success" ∧
       w.workflow_status ≠ "failure" ∧ w.workflow_status ≠ "pending") := by
  have h := counts_partition (allWorkflows ps)
  have h2 : (0 < countUnknown (allWorkflows ps)) ↔
      ∃ w ∈ allWorkflows ps, w.workflow_status ≠ "success" ∧
        w.workflow_status ≠ "failure" ∧ w.workflow_status ≠ "pending" := by
    simp [countUnknown, List.countP_pos_iff, and_assoc]
  simp only [calculate_statistics_char]
  constructor
  · omega
  · rw [← h2]
    omega

/-- The total number of effective workflows is the sum over projects of
present named slots plus other workflows. -/
theorem allWorkflows_length (ps : List ProjectData) :
    (allWorkflows ps).length =
      (ps.map (fun p => named_slot_count p + p.other_workflows.length)).sum := by
  induction ps with
  | nil => simp [allWorkflows]
  | cons p ps ih => simp [allWorkflows, effective_workflows_length, ih]

/-- C6: `total_workflows` is the sum over all projects of the number of
present named slots plus the length of `other_workflows`, and `repo_count`
is the number of input projects (projects with zero workflows included). -/
theorem total_and_repo_count (ps : List ProjectData) :
    (calculate_statistics ps).1.total_workflows =
      (ps.map (fun p => named_slot_count p + p.other_workflows.length)).sum ∧
    (calculate_statistics ps).1.repo_count = ps.length := by
  refine ⟨?_, by simp [calculate_statistics_char]⟩
  simp [calculate_statistics_char, allWorkflows_length]

/-- C7: when the total is 0 both percentages are exactly 0 (no
division-by-zero fault); when the total is positive each percentage is the
count divided by the total, times 100, rounded to one decimal; one passing
workflow out of four gives a passing percentage of exactly 25; and the empty
project list yields all-zero statistics. -/
theorem percent_formula (ps : List ProjectData) :
    ((calculate_statistics ps).1.total_workflows = 0 →
      (calculate_statistics ps).1.passing_percent = 0 ∧
      (calculate_statistics ps).1.failing_percent = 0) ∧
    (0 < (calculate_statistics ps).1.total_workflows →
      (calculate_statistics ps).1.passing_percent =
        pyRound1 (((calculate_statistics ps).1.passing_count : ℚ) /
          ((calculate_statistics ps).1.total_workflows : ℚ) * 100) ∧
      (calculate_statistics ps).1.failing_percent =
        pyRound1 (((calculate_statistics ps).1.failing_count : ℚ) /
          ((calculate_statistics ps).1.total_workflows : ℚ) * 100)) ∧
    (calculate_statistics demoQuarter).1.passing_percent = 25 ∧
    calculate_statistics [] =
      ({ passing_count := 0, failing_count := 0, stale_count := 0,
         pending_count := 0, total_workflows := 0, passing_percent := 0,
         failing_percent := 0, repo_count := 0 }, []) := by
  refine ⟨?_, ?_, ?_, ?_⟩
  · intro h
    simp only [calculate_statistics_char] at h ⊢
    simp [h, pyRound1_zero]
  · intro h
    simp only [calculate_statistics_char] at h ⊢
    rw [if_pos h, if_pos h]
    exact ⟨rfl, rfl⟩
  · have h4 : (allWorkflows demoQuarter).length = 4 := by rfl
    have h1 : countStatus "success" (allWorkflows demoQuarter) = 1 := by rfl
    simp only [calculate_statistics_char, h4, h1]
    norm_num [pyRound1, roundHalfEven]
  · simp [calculate_statistics_char, allWorkflows, countStatus, countStale,
      pyRound1_zero]

/-- Witness for C7 at concrete inputs. -/
theorem percent_formula_witness :
    ((calculate_statistics ([] : List ProjectData)).1.passing_percent = 0 ∧
     (calculate_statistics ([] : List ProjectData)).1.failing_percent = 0) ∧
    (calculate_statistics demoQuarter).1.passing_percent =
      pyRound1 (((calculate_statistics demoQuarter).1.passing_count : ℚ) /
        ((calculate_statistics demoQuarter).1.total_workflows : ℚ) * 100) :=
  ⟨(percent_formula []).1 rfl,
   ((percent_formula demoQuarter).2.1 (by decide)).1⟩

/-- C8: aggregation only overwrites the two per-project counters — the
output list has the input's length and every other field of every project
(identity, URL, version data, all four workflow slots and the other-workflow
list, hence every field of every workflow) is returned unchanged. -/
theorem aggregation_frame (ps : List ProjectData) (i : Nat)
    (h1 : i < (calculate_statistics ps).2.length) (h2 : i < ps.length) :
    (calculate_statistics ps).2.length = ps.length ∧
    ((calculate_statistics ps).2[i].owner = ps[i].owner ∧
     (calculate_statistics ps).2[i].repo = ps[i].repo ∧
     (calculate_statistics ps).2[i].icon = ps[i].icon ∧
     (calculate_statistics ps).2[i].repo_url = ps[i].repo_url ∧
     (calculate_statistics ps).2[i].copier_version = ps[i].copier_version ∧
     (calculate_statistics ps).2[i].copier_version_display_class =
       ps[i].copier_version_display_class ∧
     (calculate_statistics ps).2[i].smoke_test = ps[i].smoke_test ∧
     (calculate_statistics ps).2[i].build_docs = ps[i].build_docs ∧
     (calculate_statistics ps).2[i].benchmarks = ps[i].benchmarks ∧
     (calculate_statistics ps).2[i].live_build = ps[i].live_build ∧
     (calculate_statistics ps).2[i].other_workflows = ps[i].other_workflows) := by
  have hmap : (calculate_statistics ps).2 = ps.map updated_project := by
    simp [calculate_statistics_char]
  refine ⟨by simp [hmap], ?_⟩
  simp [hmap, updated_project]

/-- Witness for C8 at a concrete input. -/
theorem aggregation_frame_witness :
    (calculate_statistics [demoProject []]).2.length = [demoProject []].length ∧
    ((calculate_statistics [demoProject []]).2.get ⟨0, by decide⟩).owner =
      ([demoProject []].get ⟨0, by decide⟩).owner :=
  ⟨(aggregation_frame [demoProject []] 0 (by decide) (by decide)).1,
   (aggregation_frame [demoProject []] 0 (by decide) (by decide)).2.1⟩
